import Mathlib

/-!
Verification development for the ChromaCanvas timeline/compositing engine.

Times, durations, rates, coordinates and zoom factors are modelled as
rationals.  JavaScript's `v || d` coercion on numbers (which replaces a
falsy — here: zero — value by the default `d`) is modelled by `jsOr`.
Optional numeric fields that the code only ever reads through `|| d`
(`x`, `y`, `fontSize`) are modelled as plain rationals with `0` playing
the role of `undefined`; this is faithful because `undefined || d` and
`0 || d` coincide.  `Math.random()` calls are modelled by an explicit
random stream `rand : ℕ → ℚ` consumed in call order.
-/

namespace ChromaCanvas

/-- Element kinds, from `src/types.ts` (`ElementType`). -/
inductive ElementType where
  | VIDEO
  | IMAGE
  | AUDIO
  | TEXT
deriving DecidableEq, Repr

/-- Canvas aspect mode (`'landscape' | 'portrait'`). -/
inductive CanvasMode where
  | landscape
  | portrait
deriving DecidableEq, Repr

/-- Timeline element, from `src/types.ts` (`CanvasElement`). -/
structure CanvasElement where
  id : String
  type : ElementType
  name : String
  src : String := ""
  text : String := ""
  startTime : ℚ
  duration : ℚ
  trackId : ℤ
  x : ℚ := 0
  y : ℚ := 0
  volume : ℚ := 1
  opacity : ℚ := 1
  rotation : ℚ := 0
  scale : ℚ := 1
  playbackRate : ℚ := 1
  fontSize : ℚ := 0
  trimStart : ℚ := 0
  fadeIn : ℚ := 0
  fadeOut : ℚ := 0
deriving DecidableEq, Repr

/-- JavaScript `v || d` on a number: a zero (falsy) value falls back to `d`. -/
def jsOr (v d : ℚ) : ℚ := if v = 0 then d else v

/-- Convenience constructor filling the defaulted fields. -/
def mkElement (id : String) (ty : ElementType) (name : String)
    (startTime duration : ℚ) (trackId : ℤ) : CanvasElement :=
  { id := id, type := ty, name := name, startTime := startTime,
    duration := duration, trackId := trackId }

/-- Media-sync bounds check of the preview `MediaLayer`
(`timeOnTrack >= 0 && timeOnTrack <= element.duration` with
`timeOnTrack = currentTime - element.startTime`). -/
def isWithinTimelineBounds (el : CanvasElement) (currentTime : ℚ) : Bool :=
  decide (currentTime - el.startTime ≥ 0) && decide (currentTime - el.startTime ≤ el.duration)

/-- Overlay visibility check of the preview render
(`state.currentTime >= el.startTime && state.currentTime < el.startTime + el.duration`). -/
def overlayVisibleAt (el : CanvasElement) (currentTime : ℚ) : Bool :=
  decide (currentTime ≥ el.startTime) && decide (currentTime < el.startTime + el.duration)

/-- Active-element test of the export tick
(`elapsed >= el.startTime && elapsed < el.startTime + el.duration`). -/
def exportIsActive (el : CanvasElement) (elapsed : ℚ) : Bool :=
  decide (elapsed ≥ el.startTime) && decide (elapsed < el.startTime + el.duration)

/-- Which branch of the fade `if`/`else if` chain fires. -/
inductive FadeBranch where
  | fadeInBranch
  | fadeOutBranch
  | noFade
deriving DecidableEq, Repr

/-- Fade multiplier, identical in the `MediaLayer` effect, the export media
pass and the export overlay pass:
`if (fadeIn > 0 && clipTime < fadeIn) max(0, clipTime/fadeIn)
 else if (fadeOut > 0 && clipTime > duration - fadeOut) max(0, (duration-clipTime)/fadeOut)
 else 1`. -/
def fadeMultiplier (el : CanvasElement) (clipTime : ℚ) : ℚ :=
  if el.fadeIn > 0 ∧ clipTime < el.fadeIn then
    max 0 (clipTime / el.fadeIn)
  else if el.fadeOut > 0 ∧ clipTime > el.duration - el.fadeOut then
    max 0 ((el.duration - clipTime) / el.fadeOut)
  else 1

/-- The branch selected by the fade `if`/`else if` chain (same conditions as
`fadeMultiplier`, recording which formula is applied). -/
def fadeBranch (el : CanvasElement) (clipTime : ℚ) : FadeBranch :=
  if el.fadeIn > 0 ∧ clipTime < el.fadeIn then
    FadeBranch.fadeInBranch
  else if el.fadeOut > 0 ∧ clipTime > el.duration - el.fadeOut then
    FadeBranch.fadeOutBranch
  else
    FadeBranch.noFade

/-- Result record of `getProceduralTransform`. -/
structure Transform where
  x : ℚ
  y : ℚ
  rotation : ℚ
  scale : ℚ
  opacityMultiplier : ℚ
deriving DecidableEq, Repr

/-- The procedural transform resolver (`getProceduralTransform` in the right
sidebar component).  The four `Math.random()` calls of the Glitch branch are
modelled by `rand 0 .. rand 3` in source order (x, y, scale, rotation). -/
def getProceduralTransform (el : CanvasElement) (currentTime : ℚ)
    (canvasMode : CanvasMode) (isPlaying : Bool) (rand : ℕ → ℚ) : Transform :=
  let progress := (currentTime - el.startTime) / el.duration
  let clampedProgress := max 0 (min 1 progress)
  let canvasWidth : ℚ := if canvasMode = CanvasMode.portrait then 720 else 1280
  if el.name = "Spin" then
    { x := el.x, y := el.y,
      rotation := el.rotation + clampedProgress * 360 * 2,
      scale := el.scale * (1 - |clampedProgress - 0.5| * 0.5),
      opacityMultiplier := 1 }
  else if el.name = "Swipe Left" then
    { x := el.x + (canvasWidth - clampedProgress * canvasWidth * 2), y := el.y,
      rotation := el.rotation, scale := el.scale, opacityMultiplier := 1 }
  else if el.name = "Swipe Right" then
    { x := el.x + (-canvasWidth + clampedProgress * canvasWidth * 2), y := el.y,
      rotation := el.rotation, scale := el.scale, opacityMultiplier := 1 }
  else if el.name = "Glitch" then
    if isPlaying then
      { x := el.x + (rand 0 - 0.5) * 60,
        y := el.y + (rand 1 - 0.5) * 30,
        rotation := el.rotation + (rand 3 - 0.5) * 5,
        scale := el.scale * (1 + (rand 2 - 0.5) * 0.1),
        opacityMultiplier := 1 }
    else
      { x := el.x, y := el.y, rotation := el.rotation, scale := el.scale,
        opacityMultiplier := 1 }
  else if el.name = "Fade Black" ∨ el.name = "Fade White" then
    { x := el.x, y := el.y, rotation := el.rotation, scale := el.scale,
      opacityMultiplier := 1 - |clampedProgress - 0.5| * 2 }
  else
    { x := el.x, y := el.y, rotation := el.rotation, scale := el.scale,
      opacityMultiplier := 1 }

/-- Target media time of the preview sync path (`MediaLayer`):
`element.trimStart + timeOnTrack * (element.playbackRate || 1)`. -/
def targetMediaTime (el : CanvasElement) (currentTime : ℚ) : ℚ :=
  el.trimStart + (currentTime - el.startTime) * jsOr el.playbackRate 1

/-- Target media time of the export tick:
`el.trimStart + clipTime * (el.playbackRate || 1)` with
`clipTime = elapsed - el.startTime`. -/
def exportTargetTime (el : CanvasElement) (elapsed : ℚ) : ℚ :=
  el.trimStart + (elapsed - el.startTime) * jsOr el.playbackRate 1

/-- Content extent used by the export
(`state.elements.reduce((max, el) => Math.max(max, el.startTime + el.duration), 0)`). -/
def contentEnd (elements : List CanvasElement) : ℚ :=
  elements.foldl (fun m el => max m (el.startTime + el.duration)) 0

/-- Editor state, from `src/types.ts` (`EditorState`), restricted to the
fields the reducer actions under study read or write. -/
structure EditorState where
  elements : List CanvasElement
  currentTime : ℚ
  isPlaying : Bool
  zoom : ℚ
  selectedIds : List String
  duration : ℚ
  canvasMode : CanvasMode
  clipboard : Option CanvasElement
deriving DecidableEq, Repr

/-- Initial editor state of `App.tsx`. -/
def initialState : EditorState :=
  { elements := [], currentTime := 0, isPlaying := false, zoom := 50,
    selectedIds := [], duration := 60, canvasMode := CanvasMode.landscape,
    clipboard := none }

/-- Export recording duration (`Math.max(1, contentEnd)` in `handleExport`). -/
def exportDuration (s : EditorState) : ℚ :=
  max 1 (contentEnd s.elements)

/-- Partial update record carried by `UPDATE_ELEMENT` / `MOVE_ELEMENTS`
payloads (`changes`), spread over an element with `{ ...el, ...changes }`. -/
structure ElementChanges where
  startTime : Option ℚ := none
  duration : Option ℚ := none
  trackId : Option ℤ := none
  trimStart : Option ℚ := none
  playbackRate : Option ℚ := none
  x : Option ℚ := none
  y : Option ℚ := none
  volume : Option ℚ := none
  opacity : Option ℚ := none
  rotation : Option ℚ := none
  scale : Option ℚ := none
  fadeIn : Option ℚ := none
  fadeOut : Option ℚ := none
  fontSize : Option ℚ := none
  name : Option String := none
deriving DecidableEq, Repr

/-- JavaScript object spread `{ ...el, ...changes }`. -/
def applyChanges (el : CanvasElement) (c : ElementChanges) : CanvasElement :=
  { el with
    startTime := c.startTime.getD el.startTime,
    duration := c.duration.getD el.duration,
    trackId := c.trackId.getD el.trackId,
    trimStart := c.trimStart.getD el.trimStart,
    playbackRate := c.playbackRate.getD el.playbackRate,
    x := c.x.getD el.x,
    y := c.y.getD el.y,
    volume := c.volume.getD el.volume,
    opacity := c.opacity.getD el.opacity,
    rotation := c.rotation.getD el.rotation,
    scale := c.scale.getD el.scale,
    fadeIn := c.fadeIn.getD el.fadeIn,
    fadeOut := c.fadeOut.getD el.fadeOut,
    fontSize := c.fontSize.getD el.fontSize,
    name := c.name.getD el.name }

/-- Reducer case `ADD_ELEMENT` of `App.tsx`. -/
def addElement (s : EditorState) (payload : CanvasElement) : EditorState :=
  { s with
    elements := s.elements ++ [{ payload with
      fontSize := jsOr payload.fontSize 40,
      fadeIn := jsOr payload.fadeIn 0,
      fadeOut := jsOr payload.fadeOut 0,
      playbackRate := jsOr payload.playbackRate 1 }],
    selectedIds := [payload.id],
    duration := max s.duration (payload.startTime + payload.duration + 10) }

/-- Reducer case `UPDATE_ELEMENT` of `App.tsx`. -/
def updateElement (s : EditorState) (id : String) (changes : ElementChanges) :
    EditorState :=
  { s with elements := s.elements.map fun el =>
      if el.id = id then applyChanges el changes else el }

/-- Reducer case `MOVE_ELEMENTS` of `App.tsx` (per element, the first update
entry whose id matches is applied). -/
def moveElements (s : EditorState) (updates : List (String × ElementChanges)) :
    EditorState :=
  { s with elements := s.elements.map fun el =>
      match updates.find? (fun u => u.1 == el.id) with
      | some u => applyChanges el u.2
      | none => el }

/-- Reducer case `DELETE_SELECTED` of `App.tsx`. -/
def deleteSelected (s : EditorState) : EditorState :=
  { s with
    elements := s.elements.filter (fun e => !(s.selectedIds.contains e.id)),
    selectedIds := [] }

/-- Reducer case `DELETE_ELEMENT` of `App.tsx`. -/
def deleteElement (s : EditorState) (id : String) : EditorState :=
  { s with
    elements := s.elements.filter (fun e => e.id != id),
    selectedIds := s.selectedIds.filter (fun i => i != id) }

/-- Reducer case `PASTE_ELEMENT` of `App.tsx`; the `Math.random()` fresh id
is passed in as `newId`. -/
def pasteElement (s : EditorState) (newId : String) : EditorState :=
  match s.clipboard with
  | none => s
  | some cb =>
    let newEl := { cb with
      id := newId, startTime := s.currentTime,
      name := cb.name ++ " (Copy)" }
    { s with elements := s.elements ++ [newEl], selectedIds := [newId] }

/-- Body of reducer case `SPLIT_CLIP` of `App.tsx`, once the target id is
resolved; the `Math.random()` fresh id of the second part is `newId`. -/
def splitClipOn (s : EditorState) (idToSplit : String) (newId : String) :
    EditorState :=
  match s.elements.find? (fun e => e.id == idToSplit) with
  | none => s
  | some el =>
    let splitTime := s.currentTime
    if splitTime ≤ el.startTime ∨ splitTime ≥ el.startTime + el.duration then s
    else
      let firstDurationOnTimeline := splitTime - el.startTime
      let secondDurationOnTimeline := el.duration - firstDurationOnTimeline
      let mediaTimePassed := firstDurationOnTimeline * jsOr el.playbackRate 1
      let part1 := { el with duration := firstDurationOnTimeline }
      let part2 := { el with
        id := newId, startTime := splitTime,
        duration := secondDurationOnTimeline,
        trimStart := el.trimStart + mediaTimePassed }
      { s with
        elements := (s.elements.map fun e => if e.id = el.id then part1 else e)
          ++ [part2],
        selectedIds := [newId] }

/-- Resolution of `action.payload || state.selectedIds[0]` for `SPLIT_CLIP`
(an empty string is falsy in JavaScript). -/
def resolveSplitTarget (s : EditorState) (payload : Option String) :
    Option String :=
  match payload with
  | some p => if p = "" then s.selectedIds.head? else some p
  | none => s.selectedIds.head?

/-- Reducer case `SPLIT_CLIP` of `App.tsx` (an unresolved target id makes the
`find` miss and the state is returned unchanged). -/
def splitClip (s : EditorState) (payload : Option String) (newId : String) :
    EditorState :=
  match resolveSplitTarget s payload with
  | none => s
  | some tid => splitClipOn s tid newId

/-- Initial per-element drag snapshot captured on mouse-down in
`Timeline.tsx` (`dragState.initialElements`). -/
structure DragInit where
  id : String
  startTime : ℚ
  trackId : ℤ
  duration : ℚ
deriving DecidableEq, Repr

/-- Snap threshold in seconds (`snapThresholdPx / state.zoom` with
`snapThresholdPx = 15`). -/
def snapThresholdSec (zoom : ℚ) : ℚ := 15 / zoom

/-- Snap point list built in `handleMouseMove`: start and end of every
non-dragged element, then the playhead, then 0 — in push order. -/
def buildSnapPoints (elements : List CanvasElement) (draggedIds : List String)
    (currentTime : ℚ) : List ℚ :=
  (elements.filter fun el => !(draggedIds.contains el.id)).foldr
    (fun el acc => el.startTime :: (el.startTime + el.duration) :: acc)
    [currentTime, 0]

/-- Magnetic snapping loop of the move branch: for each point in order, a
start snap (`|newStartTime - point| < thr`) is checked before an end snap
(`|newEndTime - point| < thr`, which rewrites `newStartTime` to
`point - duration`); the first hit wins. -/
def snapStartTime (snapPoints : List ℚ) (thr newStartTime dur : ℚ) : ℚ :=
  match snapPoints with
  | [] => newStartTime
  | p :: rest =>
    if |newStartTime - p| < thr then p
    else if |newStartTime + dur - p| < thr then p - dur
    else snapStartTime rest thr newStartTime dur

/-- Per-element update computed by the move branch of `handleMouseMove`:
`startTime = snap(max(0, el.startTime + deltaSeconds))` and
`trackId = max(0, el.trackId + trackDelta)`. -/
def moveUpdate (el : DragInit) (deltaSeconds : ℚ) (snapPoints : List ℚ)
    (thr : ℚ) (trackDelta : ℤ) : ℚ × ℤ :=
  let newStartTime := max 0 (el.startTime + deltaSeconds)
  (snapStartTime snapPoints thr newStartTime el.duration,
   max 0 (el.trackId + trackDelta))

/-- New duration dispatched by the resize-end branch:
`Math.max(0.5, el.duration + deltaSeconds)`. -/
def resizeEndUpdate (el : DragInit) (deltaSeconds : ℚ) : ℚ :=
  max (1/2) (el.duration + deltaSeconds)

/-- New `(startTime, duration)` dispatched by the resize-start branch. -/
def resizeStartUpdate (el : DragInit) (deltaSeconds : ℚ) : ℚ × ℚ :=
  let newStartTime :=
    min (el.startTime + el.duration - 1/2) (max 0 (el.startTime + deltaSeconds))
  let durationDiff := el.startTime - newStartTime
  (newStartTime, max (1/2) (el.duration + durationDiff))

/-! Concrete fixtures used by counterexamples and witnesses. -/

/-- Video clip with `startTime = 2`, `duration = 3` (the boundary example of
the spec). -/
def elC1 : CanvasElement := mkElement "c1" ElementType.VIDEO "clip" 2 3 0

/-- Clip with overlapping fade windows: `fadeIn = 3`, `fadeOut = 3`,
`duration = 4`. -/
def elC2 : CanvasElement :=
  { mkElement "c2" ElementType.VIDEO "clip" 0 4 0 with fadeIn := 3, fadeOut := 3 }

/-- Spin transition element with `startTime = 0`, `duration = 2`. -/
def spinEl : CanvasElement := mkElement "spin" ElementType.IMAGE "Spin" 0 2 0

/-- Video element of the media-time scenario:
`{startTime: 0, duration: 10, trimStart: 2, playbackRate: 2}`. -/
def elC5 : CanvasElement :=
  { mkElement "c5" ElementType.VIDEO "vid" 0 10 0 with
    trimStart := 2, playbackRate := 2 }

/-- Video element of the split scenario:
`{startTime: 0, duration: 10, trimStart: 0, playbackRate: 1}`. -/
def elC6 : CanvasElement := mkElement "c6" ElementType.VIDEO "vid" 0 10 0

/-- State holding `elC6` with the playhead at 4. -/
def stC6 : EditorState := { initialState with elements := [elC6], currentTime := 4 }

/-- Image element ending at `0.5` seconds. -/
def elC7 : CanvasElement := mkElement "c7" ElementType.IMAGE "img" 0 (1/2) 0

/-- State whose single element ends at `0.5`; its `duration` field equals the
content extent. -/
def stC7 : EditorState := { initialState with elements := [elC7], duration := 1/2 }

/-- Elements ending at 3, 7 and 5 seconds. -/
def elEnd3 : CanvasElement := mkElement "e3" ElementType.IMAGE "a" 0 3 0

/-- Element ending at 7 seconds. -/
def elEnd7 : CanvasElement := mkElement "e7" ElementType.IMAGE "b" 3 4 0

/-- Element ending at 5 seconds. -/
def elEnd5 : CanvasElement := mkElement "e5" ElementType.IMAGE "c" 1 4 0

/-- State with elements ending at 3, 7, 5 and a configured duration of 999. -/
def stEnds : EditorState :=
  { initialState with elements := [elEnd3, elEnd7, elEnd5], duration := 999 }

/-- Same elements as `stEnds` but a configured duration of 2. -/
def stEndsSmallDur : EditorState := { stEnds with duration := 2 }

/-- Small element ending at 5. -/
def eSmall : CanvasElement := mkElement "small" ElementType.IMAGE "img" 0 5 0

/-- Element placed late on the timeline, ending at 110. -/
def eBig : CanvasElement := mkElement "big" ElementType.IMAGE "img" 100 10 0

/-- State holding `elC6` with the playhead exactly at its start boundary. -/
def stC10 : EditorState := { initialState with elements := [elC6], currentTime := 0 }

/-! Claim theorems. -/

/-- C1 (counterexample): for the element with `startTime = 2, duration = 3`,
at `t = 5 = startTime + duration` the preview media-sync bounds check is
TRUE (it uses a closed interval, `<=`), while the preview overlay visibility
check is false — so the activity test is not the half-open interval in every
place the program decides activity, contradicting the claim. -/
theorem activity_boundary_counterexample :
    elC1.startTime = 2 ∧ elC1.duration = 3
    ∧ isWithinTimelineBounds elC1 5 = true
    ∧ overlayVisibleAt elC1 5 = false := by
  refine ⟨rfl, rfl, ?_, ?_⟩ <;>
    norm_num [isWithinTimelineBounds, overlayVisibleAt, elC1, mkElement]

/-- C1 (amended): the preview overlay visibility check and the export loop's
active-element filter decide activity on the half-open interval
`[startTime, startTime + duration)`, while the preview media-sync bounds
check decides it on the closed interval `[startTime, startTime + duration]`
(true at `t = startTime + duration`). -/
theorem activity_interval_characterization (el : CanvasElement) (t : ℚ) :
    (overlayVisibleAt el t = true ↔ el.startTime ≤ t ∧ t < el.startTime + el.duration)
    ∧ (exportIsActive el t = true ↔ el.startTime ≤ t ∧ t < el.startTime + el.duration)
    ∧ (isWithinTimelineBounds el t = true ↔
        el.startTime ≤ t ∧ t ≤ el.startTime + el.duration) := by
  refine ⟨?_, ?_, ?_⟩
  · simp [overlayVisibleAt, ge_iff_le]
  · simp [exportIsActive, ge_iff_le]
  · simp only [isWithinTimelineBounds, Bool.and_eq_true, decide_eq_true_eq,
      ge_iff_le]
    constructor
    · rintro ⟨h1, h2⟩
      exact ⟨by linarith, by linarith⟩
    · rintro ⟨h1, h2⟩
      exact ⟨by linarith, by linarith⟩

/-- C2 (counterexample): for `fadeIn = 3, fadeOut = 3, duration = 4` at
`clipTime = 2`, the fade-out threshold `clipTime > duration - fadeOut` holds,
yet the evaluation selects the FADE-IN branch (the `if` checks fade-in
first), contradicting the claim that the fade-out branch is taken. -/
theorem fade_overlap_counterexample :
    elC2.fadeIn = 3 ∧ elC2.fadeOut = 3 ∧ elC2.duration = 4
    ∧ (2 : ℚ) > elC2.duration - elC2.fadeOut
    ∧ fadeBranch elC2 2 = FadeBranch.fadeInBranch := by
  have h : elC2.fadeIn > 0 ∧ (2 : ℚ) < elC2.fadeIn := by norm_num [elC2, mkElement]
  refine ⟨rfl, rfl, rfl, by norm_num [elC2, mkElement], ?_⟩
  unfold fadeBranch
  rw [if_pos h]

/-- C2 (amended): past the fade-out threshold (`fadeOut > 0` and
`clipTime > duration - fadeOut`), the fade-IN branch wins whenever the
clip-local time is still inside a configured fade-in window
(`fadeIn > 0` and `clipTime < fadeIn`); the fade-out branch and formula are
selected only when the fade-in window does not apply. -/
theorem fade_branch_selection (el : CanvasElement) (clipTime : ℚ)
    (hOut : el.fadeOut > 0) (hPast : clipTime > el.duration - el.fadeOut) :
    (el.fadeIn > 0 ∧ clipTime < el.fadeIn →
      fadeBranch el clipTime = FadeBranch.fadeInBranch
      ∧ fadeMultiplier el clipTime = max 0 (clipTime / el.fadeIn))
    ∧ (¬(el.fadeIn > 0 ∧ clipTime < el.fadeIn) →
      fadeBranch el clipTime = FadeBranch.fadeOutBranch
      ∧ fadeMultiplier el clipTime = max 0 ((el.duration - clipTime) / el.fadeOut)) := by
  constructor
  · intro h
    constructor
    · unfold fadeBranch
      rw [if_pos h]
    · unfold fadeMultiplier
      rw [if_pos h]
  · intro h
    constructor
    · unfold fadeBranch
      rw [if_neg h, if_pos ⟨hOut, hPast⟩]
    · unfold fadeMultiplier
      rw [if_neg h, if_pos ⟨hOut, hPast⟩]

/-- C2 (witness): on the concrete overlap element at `clipTime = 3.5`
(outside the fade-in window), the fade-out branch is selected. -/
theorem fade_branch_selection_witness :
    fadeBranch elC2 (7/2) = FadeBranch.fadeOutBranch
    ∧ fadeMultiplier elC2 (7/2) = max 0 ((elC2.duration - 7/2) / elC2.fadeOut) :=
  (fade_branch_selection elC2 (7/2) (by norm_num [elC2, mkElement])
    (by norm_num [elC2, mkElement])).2 (by norm_num [elC2, mkElement])

/-- C3 (counterexample): the Spin scale multiplier equals 1 (not a minimum
of 75%) at the midpoint `p = 0.5`, and equals `3/4` at `p = 0`: the
multiplier peaks at the midpoint and dips at the clip edges, contradicting
the claim that it dips to its minimum of 75% at `p = 0.5`. -/
theorem spin_midpoint_counterexample :
    max 0 (min 1 (((1 : ℚ) - spinEl.startTime) / spinEl.duration)) = 1/2
    ∧ (getProceduralTransform spinEl 1 CanvasMode.landscape true (fun _ => 0)).scale = 1
    ∧ (getProceduralTransform spinEl 0 CanvasMode.landscape true (fun _ => 0)).scale = 3/4 := by
  refine ⟨by norm_num [spinEl, mkElement], ?_, ?_⟩ <;>
    · simp only [getProceduralTransform, spinEl, mkElement]
      norm_num [abs_of_nonneg, abs_of_nonpos, abs_neg]

/-- C3 (amended): for a `Spin` element the resolved transform keeps `x`, `y`
and has `rotation = el.rotation + p·720` and
`scale = el.scale · (1 − |p − 0.5|·0.5)` with
`p = clamp01((t − startTime)/duration)`; the scale multiplier stays within
`[3/4, 1]`, equals its maximum 1 at the midpoint `p = 1/2`, and attains its
minimum of 75% at the clip edges `p = 0` and `p = 1` (not at the midpoint). -/
theorem spin_transform (el : CanvasElement) (t : ℚ) (mode : CanvasMode)
    (playing : Bool) (rand : ℕ → ℚ) (hname : el.name = "Spin") :
    getProceduralTransform el t mode playing rand =
      { x := el.x, y := el.y,
        rotation := el.rotation
          + max 0 (min 1 ((t - el.startTime) / el.duration)) * 720,
        scale := el.scale *
          (1 - |max 0 (min 1 ((t - el.startTime) / el.duration)) - 1/2| * (1/2)),
        opacityMultiplier := 1 }
    ∧ 3/4 ≤ 1 - |max 0 (min 1 ((t - el.startTime) / el.duration)) - (1/2 : ℚ)| * (1/2)
    ∧ 1 - |max 0 (min 1 ((t - el.startTime) / el.duration)) - (1/2 : ℚ)| * (1/2) ≤ 1
    ∧ (max 0 (min 1 ((t - el.startTime) / el.duration)) = 1/2 →
        1 - |max 0 (min 1 ((t - el.startTime) / el.duration)) - (1/2 : ℚ)| * (1/2) = 1)
    ∧ ((max 0 (min 1 ((t - el.startTime) / el.duration)) = 0
        ∨ max 0 (min 1 ((t - el.startTime) / el.duration)) = 1) →
        1 - |max 0 (min 1 ((t - el.startTime) / el.duration)) - (1/2 : ℚ)| * (1/2) = 3/4) := by
  set p := max 0 (min 1 ((t - el.startTime) / el.duration)) with hp
  have hp0 : 0 ≤ p := le_max_left _ _
  have hp1 : p ≤ 1 := max_le (by norm_num) (min_le_left _ _)
  have habs : |p - 1/2| ≤ 1/2 := abs_le.mpr ⟨by linarith, by linarith⟩
  have habs0 : 0 ≤ |p - 1/2| := abs_nonneg _
  refine ⟨?_, by linarith, by linarith, ?_, ?_⟩
  · simp only [getProceduralTransform]
    rw [if_pos hname, ← hp]
    simp only [Transform.mk.injEq]
    refine ⟨trivial, trivial, by ring, by norm_num, trivial⟩
  · intro h
    rw [h]
    norm_num
  · have e1 : |(0 : ℚ) - 1/2| = 1/2 := by
      rw [abs_sub_comm, abs_of_nonneg] <;> norm_num
    have e2 : |(1 : ℚ) - 1/2| = 1/2 := by
      rw [abs_of_nonneg] <;> norm_num
    rintro (h | h)
    · rw [h, e1]
      norm_num
    · rw [h, e2]
      norm_num

/-- C3 (witness): the Spin transform formulas instantiated at the concrete
Spin element with `startTime = 0, duration = 2` at `t = 1`. -/
theorem spin_transform_witness :
    getProceduralTransform spinEl 1 CanvasMode.landscape true (fun _ => 0) =
      { x := spinEl.x, y := spinEl.y,
        rotation := spinEl.rotation
          + max 0 (min 1 (((1 : ℚ) - spinEl.startTime) / spinEl.duration)) * 720,
        scale := spinEl.scale *
          (1 - |max 0 (min 1 (((1 : ℚ) - spinEl.startTime) / spinEl.duration)) - 1/2| * (1/2)),
        opacityMultiplier := 1 } :=
  (spin_transform spinEl 1 CanvasMode.landscape true (fun _ => 0) rfl).1

/-- C4: the transform resolver is deterministic for every element whose name
is not `Glitch`: two evaluations with identical
`(element, time, canvasMode, isPlaying)` but arbitrary (different) random
streams return identical outputs. -/
theorem resolver_deterministic (el : CanvasElement) (t : ℚ) (mode : CanvasMode)
    (playing : Bool) (r r' : ℕ → ℚ) (h : el.name ≠ "Glitch") :
    getProceduralTransform el t mode playing r
      = getProceduralTransform el t mode playing r' := by
  simp only [getProceduralTransform]
  split_ifs <;> rfl

/-- C4 (witness): determinism instantiated at the concrete Spin element with
two distinct random streams. -/
theorem resolver_deterministic_witness :
    getProceduralTransform spinEl 1 CanvasMode.landscape true (fun _ => 0)
      = getProceduralTransform spinEl 1 CanvasMode.landscape true (fun _ => 1/2) :=
  resolver_deterministic spinEl 1 CanvasMode.landscape true
    (fun _ => 0) (fun _ => 1/2) (by decide)

/-- C5: in both the preview sync path and the export loop, the target
source-media position equals `trimStart + (t − startTime) × playbackRate`
for every element whose playback rate is non-zero (a zero rate would be
coerced to 1 by the code's `|| 1` guard). -/
theorem media_time_formula (el : CanvasElement) (t : ℚ)
    (h : el.playbackRate ≠ 0) :
    targetMediaTime el t = el.trimStart + (t - el.startTime) * el.playbackRate
    ∧ exportTargetTime el t = el.trimStart + (t - el.startTime) * el.playbackRate := by
  unfold targetMediaTime exportTargetTime jsOr
  rw [if_neg h]
  exact ⟨rfl, rfl⟩

/-- C5 (witness): for `{startTime: 0, duration: 10, trimStart: 2,
playbackRate: 2}` at `t = 4`, both paths target media time `2 + 4·2 = 10`. -/
theorem media_time_formula_witness :
    (targetMediaTime elC5 4
        = elC5.trimStart + ((4 : ℚ) - elC5.startTime) * elC5.playbackRate
      ∧ exportTargetTime elC5 4
        = elC5.trimStart + ((4 : ℚ) - elC5.startTime) * elC5.playbackRate)
    ∧ targetMediaTime elC5 4 = 10 := by
  refine ⟨media_time_formula elC5 4 (by norm_num [elC5, mkElement]), ?_⟩
  norm_num [targetMediaTime, jsOr, elC5, mkElement]

/-- C6: splitting an element at a playhead strictly inside it replaces the
element by a first part keeping its `startTime` with
`duration = t − startTime`, appends a second part with `startTime = t`,
`duration = el.duration − (t − startTime)` and
`trimStart = el.trimStart + (t − startTime) × playbackRate` (all other
fields copied, fresh id `newId`), and selects the new part. -/
theorem split_clip_spec (s : EditorState) (el : CanvasElement) (newId : String)
    (hfind : s.elements.find? (fun e => e.id == el.id) = some el)
    (h1 : el.startTime < s.currentTime)
    (h2 : s.currentTime < el.startTime + el.duration)
    (hr : el.playbackRate ≠ 0) :
    splitClipOn s el.id newId =
      { s with
        elements := (s.elements.map fun e =>
            if e.id = el.id then
              { el with duration := s.currentTime - el.startTime }
            else e)
          ++ [{ el with
                id := newId, startTime := s.currentTime,
                duration := el.duration - (s.currentTime - el.startTime),
                trimStart := el.trimStart
                  + (s.currentTime - el.startTime) * el.playbackRate }],
        selectedIds := [newId] } := by
  have hcond :
      ¬(s.currentTime ≤ el.startTime
        ∨ s.currentTime ≥ el.startTime + el.duration) := by
    push_neg
    exact ⟨h1, h2⟩
  unfold splitClipOn
  rw [hfind]
  dsimp only
  rw [if_neg hcond]
  simp only [jsOr]
  rw [if_neg hr]

/-- C6 (witness): split of `{startTime: 0, duration: 10, trimStart: 0,
playbackRate: 1}` at playhead 4, together with the concrete resulting parts
`{startTime 0, duration 4}` and `{startTime 4, duration 6, trimStart 4}`. -/
theorem split_clip_spec_witness :
    splitClipOn stC6 elC6.id "new" =
      { stC6 with
        elements := (stC6.elements.map fun e =>
            if e.id = elC6.id then
              { elC6 with duration := stC6.currentTime - elC6.startTime }
            else e)
          ++ [{ elC6 with
                id := "new", startTime := stC6.currentTime,
                duration := elC6.duration - (stC6.currentTime - elC6.startTime),
                trimStart := elC6.trimStart
                  + (stC6.currentTime - elC6.startTime) * elC6.playbackRate }],
        selectedIds := ["new"] }
    ∧ (splitClipOn stC6 elC6.id "new").elements.map
        (fun e => (e.startTime, e.duration, e.trimStart))
      = [(0, 4, 0), (4, 6, 4)] := by
  have key := split_clip_spec stC6 elC6 "new" rfl
    (by norm_num [elC6, stC6, mkElement, initialState])
    (by norm_num [elC6, stC6, mkElement, initialState])
    (by norm_num [elC6, mkElement])
  refine ⟨key, ?_⟩
  rw [key]
  norm_num [elC6, stC6, mkElement, initialState]

/-- C10: the split reducer is atomic on failure: if the target id is not
found among the elements, or the playhead is at or outside the target
element's boundaries, the state is returned completely unchanged. -/
theorem split_clip_guard (s : EditorState) (tid newId : String) :
    (s.elements.find? (fun e => e.id == tid) = none →
      splitClipOn s tid newId = s)
    ∧ (∀ el, s.elements.find? (fun e => e.id == tid) = some el →
        s.currentTime ≤ el.startTime
          ∨ s.currentTime ≥ el.startTime + el.duration →
        splitClipOn s tid newId = s) := by
  constructor
  · intro h
    unfold splitClipOn
    rw [h]
  · intro el h hcond
    unfold splitClipOn
    rw [h]
    dsimp only
    rw [if_pos hcond]

/-- C10 (witness): with the playhead exactly at the element's start boundary
the state is unchanged, and an unknown target id leaves the state
unchanged. -/
theorem split_clip_guard_witness :
    splitClipOn stC10 "c6" "new" = stC10
    ∧ splitClipOn stC10 "missing" "new" = stC10 :=
  ⟨(split_clip_guard stC10 "c6" "new").2 elC6 rfl
      (Or.inl (by norm_num [stC10, elC6, mkElement, initialState])),
   (split_clip_guard stC10 "missing" "new").1 rfl⟩

/-- Auxiliary bound for the content-extent fold: the accumulator and every
element end time are below the fold result. -/
lemma foldl_maxEnd_bounds (l : List CanvasElement) (a : ℚ) :
    a ≤ l.foldl (fun m el => max m (el.startTime + el.duration)) a
    ∧ ∀ el ∈ l, el.startTime + el.duration
        ≤ l.foldl (fun m el => max m (el.startTime + el.duration)) a := by
  induction l generalizing a with
  | nil => exact ⟨le_refl a, by simp⟩
  | cons x xs ih =>
    obtain ⟨iha, ihb⟩ := ih (max a (x.startTime + x.duration))
    refine ⟨le_trans (le_max_left _ _) iha, ?_⟩
    intro el hel
    rcases List.mem_cons.mp hel with h | h
    · subst h
      exact le_trans (le_max_right _ _) iha
    · exact ihb el h

/-- Auxiliary attainment for the content-extent fold: the result is the
accumulator or some element's end time. -/
lemma foldl_maxEnd_attained (l : List CanvasElement) (a : ℚ) :
    l.foldl (fun m el => max m (el.startTime + el.duration)) a = a
    ∨ ∃ el ∈ l, l.foldl (fun m el => max m (el.startTime + el.duration)) a
        = el.startTime + el.duration := by
  induction l generalizing a with
  | nil => exact Or.inl rfl
  | cons x xs ih =>
    rcases ih (max a (x.startTime + x.duration)) with h | ⟨el, hel, he⟩
    · rcases le_total a (x.startTime + x.duration) with hle | hle
      · right
        refine ⟨x, List.mem_cons_self _ _, ?_⟩
        simp only [List.foldl_cons]
        rw [h, max_eq_right hle]
      · left
        simp only [List.foldl_cons]
        rw [h, max_eq_left hle]
    · right
      refine ⟨el, List.mem_cons_of_mem _ hel, ?_⟩
      simp only [List.foldl_cons]
      exact he

/-- C7 (counterexample): for the state whose single element ends at 0.5
seconds (content extent 0.5), the export duration is `max(1, 0.5) = 1`, not
the content extent, even though the configured project duration (here also
0.5) is smaller. -/
theorem export_duration_counterexample :
    contentEnd stC7.elements = 1/2 ∧ exportDuration stC7 = 1 := by
  constructor <;>
    norm_num [contentEnd, exportDuration, stC7, elC7, mkElement, initialState,
      max_def]

/-- C7 (amended): the export recording duration is `max 1 (content extent)`
where the content extent is the maximal element end time: it bounds every
element end, the extent is attained by some element end unless it is 0, and
the export duration is independent of the state's configured `duration`
field. -/
theorem export_duration_props (s : EditorState) :
    exportDuration s = max 1 (contentEnd s.elements)
    ∧ (∀ el ∈ s.elements, el.startTime + el.duration ≤ exportDuration s)
    ∧ (contentEnd s.elements = 0
        ∨ ∃ el ∈ s.elements, contentEnd s.elements = el.startTime + el.duration)
    ∧ ∀ s' : EditorState, s'.elements = s.elements →
        exportDuration s' = exportDuration s := by
  refine ⟨rfl, ?_, ?_, ?_⟩
  · intro el hel
    exact le_trans ((foldl_maxEnd_bounds s.elements 0).2 el hel) (le_max_right _ _)
  · exact foldl_maxEnd_attained s.elements 0
  · intro s' h
    unfold exportDuration contentEnd
    rw [h]

/-- C7 (witness): with elements ending at 3, 7 and 5 seconds the element
ending at 7 bounds the export duration, the export duration equals 7, and a
state with the same elements but configured duration 2 instead of 999
exports the same duration. -/
theorem export_duration_props_witness :
    (elEnd7.startTime + elEnd7.duration ≤ exportDuration stEnds
      ∧ exportDuration stEndsSmallDur = exportDuration stEnds)
    ∧ exportDuration stEnds = 7 := by
  refine ⟨⟨(export_duration_props stEnds).2.1 elEnd7 ?_,
    (export_duration_props stEnds).2.2.2 stEndsSmallDur rfl⟩, ?_⟩
  · simp [stEnds, initialState]
  · norm_num [exportDuration, contentEnd, stEnds, elEnd3, elEnd7, elEnd5,
      mkElement, initialState, max_def]

/-- C8 (counterexample): two reachable states (add then delete one element)
have identical (empty) element lists but different `duration` fields (60
versus 120), so the `duration` field is not any function of the element
list — in particular not the maximum element end time with a floor. -/
theorem duration_field_counterexample :
    (deleteElement (addElement initialState eSmall) "small").elements
      = (deleteElement (addElement initialState eBig) "big").elements
    ∧ (deleteElement (addElement initialState eSmall) "small").duration = 60
    ∧ (deleteElement (addElement initialState eBig) "big").duration = 120 := by
  refine ⟨?_, ?_, ?_⟩ <;>
    norm_num [deleteElement, addElement, initialState, eSmall, eBig, mkElement,
      jsOr, max_def]

/-- C8 (amended): the state's `duration` field is a high-water mark, not a
derived maximum of element end times: `ADD_ELEMENT` raises it to
`max(old duration, payload end + 10)`, and `UPDATE_ELEMENT`,
`MOVE_ELEMENTS`, `DELETE_SELECTED`, `DELETE_ELEMENT`, `SPLIT_CLIP` and
`PASTE_ELEMENT` leave it exactly unchanged. -/
theorem duration_field_behavior (s : EditorState) (payload : CanvasElement)
    (id newId : String) (ch : ElementChanges)
    (updates : List (String × ElementChanges)) (payloadOpt : Option String) :
    (addElement s payload).duration
      = max s.duration (payload.startTime + payload.duration + 10)
    ∧ (updateElement s id ch).duration = s.duration
    ∧ (moveElements s updates).duration = s.duration
    ∧ (deleteSelected s).duration = s.duration
    ∧ (deleteElement s id).duration = s.duration
    ∧ (splitClip s payloadOpt newId).duration = s.duration
    ∧ (pasteElement s newId).duration = s.duration := by
  refine ⟨rfl, rfl, rfl, rfl, rfl, ?_, ?_⟩
  · unfold splitClip
    cases resolveSplitTarget s payloadOpt with
    | none => rfl
    | some tid =>
      dsimp only
      unfold splitClipOn
      cases s.elements.find? (fun e => e.id == tid) with
      | none => rfl
      | some el =>
        dsimp only
        split
        · rfl
        · rfl
  · unfold pasteElement
    cases s.clipboard with
    | none => rfl
    | some cb => rfl

/-- Case analysis of the snapping loop: the result is either the unsnapped
start, a start snap to some point of the list, or an end snap to
`point − duration`. -/
lemma snapStartTime_cases (pts : List ℚ) (thr ns dur : ℚ) :
    snapStartTime pts thr ns dur = ns
    ∨ ∃ p ∈ pts, snapStartTime pts thr ns dur = p
        ∨ snapStartTime pts thr ns dur = p - dur := by
  induction pts with
  | nil => exact Or.inl rfl
  | cons p rest ih =>
    by_cases h1 : |ns - p| < thr
    · right
      refine ⟨p, List.mem_cons_self _ _, Or.inl ?_⟩
      simp only [snapStartTime]
      rw [if_pos h1]
    · by_cases h2 : |ns + dur - p| < thr
      · right
        refine ⟨p, List.mem_cons_self _ _, Or.inr ?_⟩
        simp only [snapStartTime]
        rw [if_neg h1, if_pos h2]
      · have hstep : snapStartTime (p :: rest) thr ns dur
            = snapStartTime rest thr ns dur := by
          simp only [snapStartTime]
          rw [if_neg h1, if_neg h2]
        rw [hstep]
        rcases ih with h | ⟨q, hq, hcase⟩
        · exact Or.inl h
        · exact Or.inr ⟨q, List.mem_cons_of_mem _ hq, hcase⟩

/-- C9 (counterexample): a legal move drag can dispatch a negative
`startTime`: dragging the element `{startTime 1, duration 0.6}` left by one
second at zoom 50 (threshold 0.3s) with the playhead at 0.55s end-snaps the
clip to `0.55 − 0.6 = −0.05 < 0`, contradicting the claim that every
dispatched update has `startTime ≥ 0`. -/
theorem move_snap_counterexample :
    buildSnapPoints [] ["a"] (11/20) = [11/20, 0]
    ∧ snapThresholdSec 50 = 3/10
    ∧ (moveUpdate ⟨"a", 1, 0, 3/5⟩ (-1) (buildSnapPoints [] ["a"] (11/20))
        (snapThresholdSec 50) 0).1 = -(1/20)
    ∧ (-(1/20) : ℚ) < 0 := by
  refine ⟨rfl, by norm_num [snapThresholdSec], ?_, by norm_num⟩
  norm_num [moveUpdate, buildSnapPoints, snapThresholdSec, snapStartTime,
    max_def, abs_of_nonneg, abs_of_nonpos, abs_neg]

/-- C9 (amended): the resize clamps do guarantee the invariants — resize-end
keeps `duration ≥ 0.5`, and resize-start keeps `startTime ≥ 0` and
`duration ≥ 0.5` for every valid initial element — and move keeps
`trackId ≥ 0`; however the move branch clamps `startTime ≥ 0` only before
snapping: the dispatched start is either the clamped value, a snap point
itself, or `point − duration` from an end snap, and the last two are not
clamped and can be negative. -/
theorem interaction_clamp_invariants :
    (∀ (el : DragInit) (δ : ℚ), (1 : ℚ)/2 ≤ resizeEndUpdate el δ)
    ∧ (∀ (el : DragInit) (δ : ℚ), 0 ≤ el.startTime → 1/2 ≤ el.duration →
        0 ≤ (resizeStartUpdate el δ).1 ∧ 1/2 ≤ (resizeStartUpdate el δ).2)
    ∧ (∀ (el : DragInit) (δ : ℚ) (pts : List ℚ) (thr : ℚ) (td : ℤ),
        0 ≤ (moveUpdate el δ pts thr td).2)
    ∧ (∀ (el : DragInit) (δ : ℚ) (pts : List ℚ) (thr : ℚ) (td : ℤ),
        (moveUpdate el δ pts thr td).1 = max 0 (el.startTime + δ)
        ∨ ∃ p ∈ pts, (moveUpdate el δ pts thr td).1 = p
            ∨ (moveUpdate el δ pts thr td).1 = p - el.duration) := by
  refine ⟨?_, ?_, ?_, ?_⟩
  · intro el δ
    exact le_max_left _ _
  · intro el δ hs hd
    constructor
    · exact le_min (by linarith) (le_max_left _ _)
    · exact le_max_left _ _
  · intro el δ pts thr td
    exact le_max_left _ _
  · intro el δ pts thr td
    exact snapStartTime_cases pts thr (max 0 (el.startTime + δ)) el.duration

/-- C9 (witness): the resize clamps instantiated at a concrete element
`{startTime 2, duration 3}` dragged far left. -/
theorem interaction_clamp_invariants_witness :
    (0 ≤ (resizeStartUpdate ⟨"a", 2, 0, 3⟩ (-5)).1
      ∧ 1/2 ≤ (resizeStartUpdate ⟨"a", 2, 0, 3⟩ (-5)).2)
    ∧ (1 : ℚ)/2 ≤ resizeEndUpdate ⟨"a", 2, 0, 3⟩ (-10) :=
  ⟨interaction_clamp_invariants.2.1 ⟨"a", 2, 0, 3⟩ (-5) (by norm_num)
      (by norm_num),
   interaction_clamp_invariants.1 ⟨"a", 2, 0, 3⟩ (-10)⟩

end ChromaCanvas
